import Mathlib

/-!
Verification of the parallel fan-out/fan-in coordinator
(`src/mcp_agent/workflows/parallel/parallel_llm.py`, class `ParallelLLM`)
against its natural-language specification.

Modelling conventions:
* Python's dynamically typed values are embedded as the inductive type `Val`.
* Python `async` methods that may raise become functions into `Except Err _`.
* The generation parameters accepted by every generation call are the record
  `GenParams`, mirroring the keyword parameters and defaults of the source.
* The execution substrate, the fan-out stage (`fan_out.py`) and the fan-in
  stage (`fan_in.py`) are imported by the coordinator but their sources are
  not part of the material under verification; they are modelled from the
  spec (marked in their doc comments).
* Concurrency is modelled by a completion schedule `σ : List Nat`: the order
  in which the concurrently dispatched tasks are observed to complete.  A
  schedule that is a permutation of the task indices corresponds to a run in
  which every task completes.
-/

/-- Embedded dynamic (Python) value: the message/result universe. -/
inductive Val : Type where
  | vnone : Val
  | vbool : Bool → Val
  | vint : Int → Val
  | vstr : String → Val
  | vlist : List Val → Val

mutual

/-- Models Python's built-in str() coercion: total on every value; the
identity on strings, a textual rendering on everything else. -/
def py_str : Val → String
  | Val.vnone => "None"
  | Val.vbool true => "True"
  | Val.vbool false => "False"
  | Val.vint n => toString n
  | Val.vstr s => s
  | Val.vlist xs => "[" ++ py_str_items xs ++ "]"

/-- Helper for py_str on lists: comma-separated rendering of the items. -/
def py_str_items : List Val → String
  | [] => ""
  | [x] => py_str x
  | x :: y :: rest => py_str x ++ ", " ++ py_str_items (y :: rest)

end

/-- The generation-parameter bundle accepted by every generation call,
mirroring the source's keyword parameters and their defaults
(use_history=True, max_iterations=10, model=None, stop_sequences=None,
max_tokens=2048, parallel_tool_calls=True). -/
structure GenParams : Type where
  use_history : Bool
  max_iterations : Nat
  model : Option String
  stop_sequences : Option (List String)
  max_tokens : Nat
  parallel_tool_calls : Bool
deriving DecidableEq

/-- The default generation parameters of the source. -/
def defaultParams : GenParams := ⟨true, 10, none, none, 2048, true⟩

/-- Error kinds raised by the embedded code: a configuration error at
construction time, a generation-unit failure, and a Python AttributeError
(reading an attribute that is not bound on the object). -/
inductive Err : Type where
  | configurationError : String → Err
  | unitFailure : String → Err
  | attributeError : String → Err
deriving DecidableEq

/-- Extracts the success value of a task outcome, if any. -/
def okValue : Except Err Val → Option Val
  | Except.ok v => some v
  | Except.error _ => none

/-- Observing the outcome of task `i` in a task list (out-of-range indices
never arise for schedules that are permutations of the actual indices; they
default to a successful placeholder). -/
def taskObserve (tasks : List (Except Err Val)) (i : Nat) : Except Err Val :=
  tasks.getD i (Except.ok Val.vnone)

/-- Modelled from the spec: the execution substrate "runs them concurrently,
returning their results once all complete, or raising/propagating the first
failure encountered" (spec 6).  `firstFailure` is the first failure in
completion order `σ`. -/
def firstFailure (tasks : List (Except Err Val)) (σ : List Nat) : Option Err :=
  σ.findSome? (fun i =>
    match taskObserve tasks i with
    | Except.error e => some e
    | Except.ok _ => none)

/-- Modelled from the spec: the structured concurrent join "spawn N tasks,
await all, preserve original indices" (spec 9).  Each task's success value is
recorded, in completion order `σ`, at its original index. -/
def scatter (tasks : List (Except Err Val)) (σ : List Nat) : Nat → Option Val :=
  match σ with
  | [] => fun _ => none
  | i :: rest => fun j =>
      if j = i then okValue (taskObserve tasks i) else scatter tasks rest j

/-- Reading the joined results back in original index order (spec 4.1:
"the result sequence's order equals the configuration order of units,
regardless of completion order"). -/
def joinByIndex (tasks : List (Except Err Val)) (σ : List Nat) : List Val :=
  (List.range tasks.length).map (fun i => (scatter tasks σ i).getD Val.vnone)

/-- Modelled from the spec: running a batch of concurrent tasks under
completion schedule `σ` on the execution substrate — propagate the first
failure encountered, otherwise return all results in original index order. -/
def execute_tasks (tasks : List (Except Err Val)) (σ : List Nat) :
    Except Err (List Val) :=
  match firstFailure tasks σ with
  | some e => Except.error e
  | none => Except.ok (joinByIndex tasks σ)

/-- A fan-out generation unit: takes the message and the generation
parameters, produces a result or fails. -/
abbrev FanOutUnit : Type := Val → GenParams → Except Err Val

/-- Modelled from the spec: the Fan-Out stage (fan_out.py is not under the
verified sources).  It holds the configured generation units in
configuration order (spec 4.1). -/
structure FanOut : Type where
  units : List FanOutUnit

/-- The message the source's error string for a Fan-Out with no units. -/
def fanOutNoUnitsMsg : String := "Either agents or functions must be provided"

/-- Modelled from the spec: constructing the Fan-Out stage from the optional
agent list and optional function list.  "At least one Generation Unit must be
configured (agents and/or functions); configuring zero units is a caller
error" (spec 4.1) and "ConfigurationError: raised/signaled when the
Coordinator is constructed with no Fan-Out units" (spec 7).  Agent units
receive message and parameters; function units are "invoked with the
message" only (spec 3), in configuration order, agents first. -/
def FanOut.make (agents : Option (List FanOutUnit))
    (functions : Option (List (Val → Except Err Val))) : Except Err FanOut :=
  let ag := agents.getD []
  let fs := functions.getD []
  if ag.isEmpty && fs.isEmpty then
    Except.error (Err.configurationError fanOutNoUnitsMsg)
  else
    Except.ok ⟨ag ++ fs.map (fun f => fun msg (_params : GenParams) => f msg)⟩

/-- Modelled from the spec: the Fan-Out stage's generate — "every configured
unit receives an identical copy of message and params; all units are invoked
concurrently via the execution substrate" (spec 4.1). -/
def FanOut.generate (fo : FanOut) (message : Val) (params : GenParams)
    (σ : List Nat) : Except Err (List Val) :=
  execute_tasks (fo.units.map (fun u => u message params)) σ

/-- The capability surface of the aggregating generation unit (spec 6):
generate, generate_str and generate_structured, each taking the ordered
fan-out results plus the generation parameters (the structured mode also
takes the response-model name). -/
structure AggregatorAgent : Type where
  gen : List Val → GenParams → Except Err Val
  gen_str : List Val → GenParams → Except Err String
  gen_structured : List Val → String → GenParams → Except Err Val

/-- Modelled from the spec: the Fan-In stage (fan_in.py is not under the
verified sources).  It wraps the aggregator unit and delegates each
generation mode to the unit's corresponding mode, "passing the full ordered
results plus params" (spec 4.2). -/
structure FanInLLM : Type where
  aggregator_agent : AggregatorAgent

/-- Fan-In generate: delegate to the aggregator unit's generate. -/
def FanInLLM.generate (fi : FanInLLM) (messages : List Val)
    (params : GenParams) : Except Err Val :=
  fi.aggregator_agent.gen messages params

/-- Fan-In generate_str: delegate to the aggregator unit's generate_str. -/
def FanInLLM.generate_str (fi : FanInLLM) (messages : List Val)
    (params : GenParams) : Except Err String :=
  fi.aggregator_agent.gen_str messages params

/-- Fan-In generate_structured: delegate to the aggregator unit's
generate_structured. -/
def FanInLLM.generate_structured (fi : FanInLLM) (messages : List Val)
    (response_model : String) (params : GenParams) : Except Err Val :=
  fi.aggregator_agent.gen_structured messages response_model params

/-- The fan_in_agent constructor argument of ParallelLLM:
Agent | AugmentedLLM | Callable.  The isinstance(fan_in_agent, Callable)
test of the source corresponds to matching on the constructor. -/
inductive FanInAgentArg : Type where
  | agent : AggregatorAgent → FanInAgentArg
  | callable : (List Val → Except Err Val) → FanInAgentArg

/-- The ParallelLLM coordinator state after construction.  The source's
__init__ assigns exactly one of fan_in_fn / fan_in per branch; the attribute
left unassigned is modelled as none (modelled from the spec: the base class
AugmentedLLM is not under the verified sources, and spec 4.3 describes the
else-branch of the truthiness test "if self.fan_in_fn:" as routing to the
aggregator unit, so the unassigned attribute reads as falsy/None). -/
structure ParallelLLM : Type where
  fan_in_fn : Option (List Val → Except Err Val)
  fan_in : Option FanInLLM
  fan_out : FanOut
  history : Option (List Val)

/-- Embedding of ParallelLLM.__init__: select the fan-in strategy by the
type of fan_in_agent (isinstance Callable), set history to None
("History tracking is complex in this workflow, so it is not supported"),
and construct the Fan-Out stage, whose construction may fail.  The source
assigns the fan-in attributes before constructing the Fan-Out stage; as that
assignment cannot fail, the observable outcome is identical. -/
def ParallelLLM.init (fan_in_agent : FanInAgentArg)
    (fan_out_agents : Option (List FanOutUnit))
    (fan_out_functions : Option (List (Val → Except Err Val))) :
    Except Err ParallelLLM :=
  match FanOut.make fan_out_agents fan_out_functions with
  | Except.error e => Except.error e
  | Except.ok fo =>
    match fan_in_agent with
    | FanInAgentArg.callable f => Except.ok ⟨some f, none, fo, none⟩
    | FanInAgentArg.agent a => Except.ok ⟨none, some ⟨a⟩, fo, none⟩

/-- Embedding of ParallelLLM.generate: first fan-out with the caller's
message and parameters; then fan-in — the reduction function applied to the
responses when one is configured, otherwise the Fan-In stage's generate with
the responses and the same parameters. -/
def ParallelLLM.generate (p : ParallelLLM) (message : Val)
    (params : GenParams) (σ : List Nat) : Except Err Val :=
  match p.fan_out.generate message params σ with
  | Except.error e => Except.error e
  | Except.ok responses =>
    match p.fan_in_fn with
    | some f => f responses
    | none =>
      match p.fan_in with
      | some fi => fi.generate responses params
      | none => Except.error (Err.attributeError "fan_in")

/-- Embedding of ParallelLLM.generate_str: fan-out, then either
str(fan_in_fn(responses)) — the raw reduction result coerced by py_str —
or the Fan-In stage's generate_str. -/
def ParallelLLM.generate_str (p : ParallelLLM) (message : Val)
    (params : GenParams) (σ : List Nat) : Except Err String :=
  match p.fan_out.generate message params σ with
  | Except.error e => Except.error e
  | Except.ok responses =>
    match p.fan_in_fn with
    | some f =>
      match f responses with
      | Except.error e => Except.error e
      | Except.ok r => Except.ok (py_str r)
    | none =>
      match p.fan_in with
      | some fi => fi.generate_str responses params
      | none => Except.error (Err.attributeError "fan_in")

/-- Embedding of ParallelLLM.generate_structured: fan-out, then either the
reduction function's raw result (the response model is not consulted), or
the Fan-In stage's generate_structured with the response model. -/
def ParallelLLM.generate_structured (p : ParallelLLM) (message : Val)
    (response_model : String) (params : GenParams) (σ : List Nat) :
    Except Err Val :=
  match p.fan_out.generate message params σ with
  | Except.error e => Except.error e
  | Except.ok responses =>
    match p.fan_in_fn with
    | some f => f responses
    | none =>
      match p.fan_in with
      | some fi => fi.generate_structured responses response_model params
      | none => Except.error (Err.attributeError "fan_in")

/-- The combine phase of generate, factored out: exactly what the source
does with the fan-out responses after the fan-out await. -/
def ParallelLLM.combinePhase (p : ParallelLLM) (responses : List Val)
    (params : GenParams) : Except Err Val :=
  match p.fan_in_fn with
  | some f => f responses
  | none =>
    match p.fan_in with
    | some fi => fi.generate responses params
    | none => Except.error (Err.attributeError "fan_in")

/-- The combine phase of generate_str, factored out. -/
def ParallelLLM.combinePhaseStr (p : ParallelLLM) (responses : List Val)
    (params : GenParams) : Except Err String :=
  match p.fan_in_fn with
  | some f =>
    match f responses with
    | Except.error e => Except.error e
    | Except.ok r => Except.ok (py_str r)
  | none =>
    match p.fan_in with
    | some fi => fi.generate_str responses params
    | none => Except.error (Err.attributeError "fan_in")

/-- The combine phase of generate_structured, factored out. -/
def ParallelLLM.combinePhaseStructured (p : ParallelLLM)
    (responses : List Val) (response_model : String) (params : GenParams) :
    Except Err Val :=
  match p.fan_in_fn with
  | some f => f responses
  | none =>
    match p.fan_in with
    | some fi => fi.generate_structured responses response_model params
    | none => Except.error (Err.attributeError "fan_in")

/-- Support: scatter reads back the recorded success value at any index that
occurs in the schedule. -/
theorem scatter_eq_of_mem (tasks : List (Except Err Val)) (σ : List Nat)
    (i : Nat) (h : i ∈ σ) :
    scatter tasks σ i = okValue (taskObserve tasks i) := by
  induction σ with
  | nil => cases h
  | cons a rest ih =>
    by_cases hia : i = a
    · subst hia
      simp [scatter]
    · have hm : i ∈ rest := by
        cases h with
        | head => exact absurd rfl hia
        | tail _ hm => exact hm
      simp [scatter, hia, ih hm]

/-- Support: findSome? misses when the function misses on every element. -/
theorem findSome?_eq_none_of_all {α β : Type} (f : α → Option β)
    (l : List α) (h : ∀ x ∈ l, f x = none) : l.findSome? f = none := by
  induction l with
  | nil => rfl
  | cons a t ih =>
    have ha := h a (by simp)
    rw [List.findSome?_cons, ha]
    exact ih (fun x hx => h x (by simp [hx]))

/-- Support: findSome? hits the unique element on which the function hits. -/
theorem findSome?_eq_some_of_unique {α β : Type} (f : α → Option β)
    (l : List α) (i : α) (e : β) (hmem : i ∈ l) (hi : f i = some e)
    (huniq : ∀ j, j ≠ i → f j = none) : l.findSome? f = some e := by
  induction l with
  | nil => cases hmem
  | cons a t ih =>
    by_cases hai : a = i
    · subst hai
      rw [List.findSome?_cons, hi]
    · have ha : f a = none := huniq a hai
      rw [List.findSome?_cons, ha]
      have hm : i ∈ t := by
        cases hmem with
        | head => exact absurd rfl hai
        | tail _ hm => exact hm
      exact ih hm

/-- Support: observing a task in an all-successful batch. -/
theorem taskObserve_map_ok (outs : List Val) (i : Nat) :
    taskObserve (outs.map Except.ok) i = Except.ok (outs.getD i Val.vnone) := by
  induction outs generalizing i with
  | nil => cases i <;> rfl
  | cons a t ih =>
    cases i with
    | zero => rfl
    | succ n =>
      show (Except.ok a :: t.map Except.ok).getD (n + 1) (Except.ok Val.vnone)
        = Except.ok ((a :: t).getD (n + 1) Val.vnone)
      rw [List.getD_cons_succ, List.getD_cons_succ]
      exact ih n

/-- Support: reading a list back through getD over its index range. -/
theorem range_map_getD (l : List Val) :
    (List.range l.length).map (fun i => l.getD i Val.vnone) = l := by
  induction l with
  | nil => rfl
  | cons a t ih =>
    rw [List.length_cons, List.range_succ_eq_map, List.map_cons,
      List.map_map]
    have hcongr : (List.range t.length).map
        ((fun i => (a :: t).getD i Val.vnone) ∘ Nat.succ)
        = (List.range t.length).map (fun i => t.getD i Val.vnone) := by
      apply List.map_congr_left
      intro x hx
      show (a :: t).getD (x + 1) Val.vnone = t.getD x Val.vnone
      rw [List.getD_cons_succ]
    rw [hcongr, ih]
    rfl

/-- Support: under any completion schedule that is a permutation of the task
indices, a batch of successful tasks yields exactly the results in original
index order. -/
theorem execute_tasks_ok (outs : List Val) (σ : List Nat)
    (hperm : σ.Perm (List.range outs.length)) :
    execute_tasks (outs.map Except.ok) σ = Except.ok outs := by
  have hobs := taskObserve_map_ok outs
  have hff : firstFailure (outs.map Except.ok) σ = none := by
    unfold firstFailure
    apply findSome?_eq_none_of_all
    intro x hx
    rw [hobs x]
  have hjoin : joinByIndex (outs.map Except.ok) σ = outs := by
    unfold joinByIndex
    rw [List.length_map]
    have hpt : ∀ i ∈ List.range outs.length,
        (scatter (outs.map Except.ok) σ i).getD Val.vnone
          = outs.getD i Val.vnone := by
      intro i hi
      have hiσ : i ∈ σ := hperm.mem_iff.mpr hi
      rw [scatter_eq_of_mem _ _ _ hiσ, hobs i]
      rfl
    rw [List.map_congr_left hpt, range_map_getD]
  unfold execute_tasks
  rw [hff, hjoin]

/-- Support: when the task at a scheduled index fails and every other task
succeeds, the batch fails with exactly that failure. -/
theorem execute_tasks_err (tasks : List (Except Err Val)) (σ : List Nat)
    (i : Nat) (e : Err) (hmem : i ∈ σ)
    (hie : taskObserve tasks i = Except.error e)
    (hothers : ∀ j, j ≠ i → ∃ v, taskObserve tasks j = Except.ok v) :
    execute_tasks tasks σ = Except.error e := by
  have hff : firstFailure tasks σ = some e := by
    unfold firstFailure
    apply findSome?_eq_some_of_unique _ _ i e hmem
    · rw [hie]
    · intro j hj
      obtain ⟨v, hv⟩ := hothers j hj
      rw [hv]
  unfold execute_tasks
  rw [hff]

/-- Support: inversion of a successful construction with a callable fan-in:
the reduction function is stored, no aggregator is stored, no history. -/
theorem init_callable_ok (f : List Val → Except Err Val)
    (ao : Option (List FanOutUnit))
    (fns : Option (List (Val → Except Err Val))) (p : ParallelLLM)
    (h : ParallelLLM.init (FanInAgentArg.callable f) ao fns = Except.ok p) :
    ∃ fo, FanOut.make ao fns = Except.ok fo
      ∧ p = ⟨some f, none, fo, none⟩ := by
  unfold ParallelLLM.init at h
  cases hmk : FanOut.make ao fns with
  | error e => rw [hmk] at h; cases h
  | ok fo =>
    rw [hmk] at h
    injection h with h1
    exact ⟨fo, rfl, h1.symm⟩

/-- Support: inversion of a successful construction with an aggregator-unit
fan-in: the Fan-In stage wraps the unit, no reduction function, no history. -/
theorem init_agent_ok (a : AggregatorAgent)
    (ao : Option (List FanOutUnit))
    (fns : Option (List (Val → Except Err Val))) (p : ParallelLLM)
    (h : ParallelLLM.init (FanInAgentArg.agent a) ao fns = Except.ok p) :
    ∃ fo, FanOut.make ao fns = Except.ok fo
      ∧ p = ⟨none, some ⟨a⟩, fo, none⟩ := by
  unfold ParallelLLM.init at h
  cases hmk : FanOut.make ao fns with
  | error e => rw [hmk] at h; cases h
  | ok fo =>
    rw [hmk] at h
    injection h with h1
    exact ⟨fo, rfl, h1.symm⟩

/-- Encoding of a full parameter bundle as a value, used by spy units to
record exactly the parameters they were invoked with. -/
def encodeParams (ps : GenParams) : Val :=
  Val.vlist [Val.vbool ps.use_history, Val.vint (ps.max_iterations : Int),
    (match ps.model with
     | none => Val.vnone
     | some s => Val.vstr s),
    (match ps.stop_sequences with
     | none => Val.vnone
     | some l => Val.vlist (l.map Val.vstr)),
    Val.vint (ps.max_tokens : Int), Val.vbool ps.parallel_tool_calls]

/-- A spy fan-out unit: succeeds with the parameter bundle it received. -/
def spyUnit : FanOutUnit := fun _msg ps => Except.ok (encodeParams ps)

/-- A spy aggregator: records, in each mode, the parameters (and response
model) it received together with the responses passed to it. -/
def spyAgg : AggregatorAgent :=
  ⟨fun rs ps => Except.ok (Val.vlist (encodeParams ps :: rs)),
   fun rs ps => Except.ok (py_str (Val.vlist (encodeParams ps :: rs))),
   fun rs rm ps =>
     Except.ok (Val.vlist (Val.vstr rm :: encodeParams ps :: rs))⟩

/-- A coordinator with two spy fan-out units and a spy aggregator. -/
def spyCoordinator : ParallelLLM :=
  ⟨none, some ⟨spyAgg⟩, ⟨[spyUnit, spyUnit]⟩, none⟩

/-- A concrete fan-out unit returning the fixed string A. -/
def unitA : FanOutUnit := fun _ _ => Except.ok (Val.vstr "A")

/-- A concrete fan-out unit returning the fixed string B. -/
def unitB : FanOutUnit := fun _ _ => Except.ok (Val.vstr "B")

/-- A concrete fan-out unit returning the fixed string C. -/
def unitC : FanOutUnit := fun _ _ => Except.ok (Val.vstr "C")

/-- A concrete fan-out unit that always fails. -/
def unitFail : FanOutUnit := fun _ _ => Except.error (Err.unitFailure "boom")

/-- A concrete reduction function wrapping the responses in a list value. -/
def reduceList : List Val → Except Err Val :=
  fun rs => Except.ok (Val.vlist rs)

/-- A concrete reduction function returning a non-string value. -/
def reduce42 : List Val → Except Err Val :=
  fun _ => Except.ok (Val.vint 42)

/-- A concrete aggregator returning fixed values. -/
def aggFixed : AggregatorAgent :=
  ⟨fun _ _ => Except.ok (Val.vstr "agg"),
   fun _ _ => Except.ok "agg",
   fun _ _ _ => Except.ok (Val.vstr "agg-structured")⟩

/-- The coordinator constructed from reduceList and the single unit unitA. -/
def pReduce : ParallelLLM := ⟨some reduceList, none, ⟨[unitA]⟩, none⟩

/-- The coordinator constructed from aggFixed and the single unit unitA. -/
def pAgg : ParallelLLM := ⟨none, some ⟨aggFixed⟩, ⟨[unitA]⟩, none⟩

/-- The coordinator constructed from reduce42 and the single unit unitA. -/
def pReduce42 : ParallelLLM := ⟨some reduce42, none, ⟨[unitA]⟩, none⟩

/-- Claim C1: the fan-in strategy is selected once at construction solely by
the type of the fan-in value: with a plain callable, all three operations
combine by calling that function with the fan-out results; with an
aggregator unit, all three operations invoke the unit's corresponding
generation mode.  The routing below is quantified over every message,
parameter bundle and schedule of every call, so it never changes over the
instance's lifetime. -/
theorem fanin_strategy_fixed_at_construction
    (f : List Val → Except Err Val) (a : AggregatorAgent)
    (ao : Option (List FanOutUnit))
    (fns : Option (List (Val → Except Err Val))) (pf pa : ParallelLLM)
    (hf : ParallelLLM.init (FanInAgentArg.callable f) ao fns = Except.ok pf)
    (ha : ParallelLLM.init (FanInAgentArg.agent a) ao fns = Except.ok pa) :
    (∀ msg params σ rs, pf.fan_out.generate msg params σ = Except.ok rs →
      pf.generate msg params σ = f rs ∧
      pf.generate_str msg params σ = Except.map py_str (f rs) ∧
      ∀ rm, pf.generate_structured msg rm params σ = f rs) ∧
    (∀ msg params σ rs, pa.fan_out.generate msg params σ = Except.ok rs →
      pa.generate msg params σ = a.gen rs params ∧
      pa.generate_str msg params σ = a.gen_str rs params ∧
      ∀ rm, pa.generate_structured msg rm params σ
        = a.gen_structured rs rm params) := by
  obtain ⟨fo, hmk, hp⟩ := init_callable_ok f ao fns pf hf
  obtain ⟨fo2, hmk2, hp2⟩ := init_agent_ok a ao fns pa ha
  subst hp
  subst hp2
  constructor
  · intro msg params σ rs hrs
    refine ⟨?_, ?_, fun rm => ?_⟩
    · simp [ParallelLLM.generate, hrs]
    · cases hfr : f rs <;>
        simp [ParallelLLM.generate_str, hrs, hfr, Except.map]
    · simp [ParallelLLM.generate_structured, hrs]
  · intro msg params σ rs hrs
    refine ⟨?_, ?_, fun rm => ?_⟩
    · simp [ParallelLLM.generate, hrs, FanInLLM.generate]
    · simp [ParallelLLM.generate_str, hrs, FanInLLM.generate_str]
    · simp [ParallelLLM.generate_structured, hrs,
        FanInLLM.generate_structured]

/-- Witness for C1: a single-unit coordinator; the function-reduction
instance routes to the reduction function, the aggregator instance routes to
the aggregator's generate. -/
theorem fanin_strategy_fixed_at_construction_witness :
    pReduce.generate (Val.vstr "X") defaultParams [0]
        = Except.ok (Val.vlist [Val.vstr "A"]) ∧
    pAgg.generate (Val.vstr "X") defaultParams [0]
        = Except.ok (Val.vstr "agg") := by
  have h := fanin_strategy_fixed_at_construction reduceList aggFixed
    (some [unitA]) none pReduce pAgg rfl rfl
  have h1 := (h.1 (Val.vstr "X") defaultParams [0] [Val.vstr "A"] rfl).1
  have h2 := (h.2 (Val.vstr "X") defaultParams [0] [Val.vstr "A"] rfl).1
  exact ⟨h1.trans rfl, h2.trans rfl⟩

/-- Claim C2: if one of the configured fan-out units fails (and the others
succeed), every generation mode of the call fails with exactly that failure,
for every fan-in configuration whatsoever — so the fan-in (reduction
function or aggregator) is never consulted. -/
theorem fanout_failure_aborts_call (units : List FanOutUnit) (msg : Val)
    (params : GenParams) (σ : List Nat) (i : Nat) (e : Err)
    (ffn : Option (List Val → Except Err Val)) (fi : Option FanInLLM)
    (hist : Option (List Val)) (hmem : i ∈ σ)
    (hie : taskObserve (units.map (fun u => u msg params)) i
      = Except.error e)
    (hothers : ∀ j, j ≠ i → ∃ v,
      taskObserve (units.map (fun u => u msg params)) j = Except.ok v) :
    (ParallelLLM.mk ffn fi ⟨units⟩ hist).generate msg params σ
        = Except.error e ∧
    (ParallelLLM.mk ffn fi ⟨units⟩ hist).generate_str msg params σ
        = Except.error e ∧
    ∀ rm, (ParallelLLM.mk ffn fi ⟨units⟩ hist).generate_structured
        msg rm params σ = Except.error e := by
  have hfo : FanOut.generate ⟨units⟩ msg params σ = Except.error e := by
    unfold FanOut.generate
    exact execute_tasks_err _ σ i e hmem hie hothers
  refine ⟨?_, ?_, fun rm => ?_⟩
  · simp [ParallelLLM.generate, hfo]
  · simp [ParallelLLM.generate_str, hfo]
  · simp [ParallelLLM.generate_structured, hfo]

/-- Witness for C2: two units, the second fails, schedule observes the
failing unit first; the whole generate call fails with that failure even
though a reduction function is configured. -/
theorem fanout_failure_aborts_call_witness :
    (ParallelLLM.mk (some reduceList) none ⟨[unitA, unitFail]⟩ none).generate
        (Val.vstr "X") defaultParams [1, 0]
      = Except.error (Err.unitFailure "boom") := by
  have h := fanout_failure_aborts_call [unitA, unitFail] (Val.vstr "X")
    defaultParams [1, 0] 1 (Err.unitFailure "boom") (some reduceList) none
    none (by simp) rfl ?_
  · exact h.1
  · intro j hj
    match j with
    | 0 => exact ⟨Val.vstr "A", rfl⟩
    | 1 => exact absurd rfl hj
    | n + 2 => exact ⟨Val.vnone, rfl⟩

/-- Claim C3: every public call is a strict two-phase pipeline — the
fan-out stage runs first with the caller's message and parameters; when it
completes with the ordered result sequence, the combine phase receives
exactly that sequence (no reordering, filtering or modification); when it
fails, the call fails and no combine phase runs. -/
theorem two_phase_pipeline (p : ParallelLLM) (msg : Val)
    (params : GenParams) (σ : List Nat) :
    (∀ rs, p.fan_out.generate msg params σ = Except.ok rs →
      p.generate msg params σ = p.combinePhase rs params ∧
      p.generate_str msg params σ = p.combinePhaseStr rs params ∧
      ∀ rm, p.generate_structured msg rm params σ
        = p.combinePhaseStructured rs rm params) ∧
    (∀ e, p.fan_out.generate msg params σ = Except.error e →
      p.generate msg params σ = Except.error e ∧
      p.generate_str msg params σ = Except.error e ∧
      ∀ rm, p.generate_structured msg rm params σ = Except.error e) := by
  constructor
  · intro rs hrs
    refine ⟨?_, ?_, fun rm => ?_⟩
    · simp [ParallelLLM.generate, ParallelLLM.combinePhase, hrs]
    · simp [ParallelLLM.generate_str, ParallelLLM.combinePhaseStr, hrs]
    · simp [ParallelLLM.generate_structured,
        ParallelLLM.combinePhaseStructured, hrs]
  · intro e he
    refine ⟨?_, ?_, fun rm => ?_⟩
    · simp [ParallelLLM.generate, he]
    · simp [ParallelLLM.generate_str, he]
    · simp [ParallelLLM.generate_structured, he]

/-- Witness for C3: on the single-unit reduction coordinator, generate and
generate_str equal the combine phase applied to the fan-out results. -/
theorem two_phase_pipeline_witness :
    pReduce.generate (Val.vstr "X") defaultParams [0]
      = pReduce.combinePhase [Val.vstr "A"] defaultParams ∧
    pReduce.generate_str (Val.vstr "X") defaultParams [0]
      = pReduce.combinePhaseStr [Val.vstr "A"] defaultParams := by
  have h := (two_phase_pipeline pReduce (Val.vstr "X") defaultParams [0]).1
    [Val.vstr "A"] rfl
  exact ⟨h.1, h.2.1⟩

/-- Claim C4: generate_str always returns a string (in the embedding its
success type is String); in the function-reduction path the function's raw
result is coerced by py_str — so a string comes back even when the function
returns a non-string value — while in the aggregator path the aggregator's
generate_str result is passed through with no coercion. -/
theorem generate_str_string_coercion (f : List Val → Except Err Val)
    (a : AggregatorAgent) (ao : Option (List FanOutUnit))
    (fns : Option (List (Val → Except Err Val))) (p q : ParallelLLM)
    (hp : ParallelLLM.init (FanInAgentArg.callable f) ao fns = Except.ok p)
    (hq : ParallelLLM.init (FanInAgentArg.agent a) ao fns = Except.ok q) :
    (∀ msg params σ rs r, p.fan_out.generate msg params σ = Except.ok rs →
      f rs = Except.ok r →
      p.generate_str msg params σ = Except.ok (py_str r)) ∧
    (∀ msg params σ rs, q.fan_out.generate msg params σ = Except.ok rs →
      q.generate_str msg params σ = a.gen_str rs params) := by
  obtain ⟨fo, hmk, hpe⟩ := init_callable_ok f ao fns p hp
  obtain ⟨fo2, hmk2, hqe⟩ := init_agent_ok a ao fns q hq
  subst hpe
  subst hqe
  constructor
  · intro msg params σ rs r hrs hr
    simp [ParallelLLM.generate_str, hrs, hr]
  · intro msg params σ rs hrs
    simp [ParallelLLM.generate_str, hrs, FanInLLM.generate_str]

/-- Witness for C4: the reduction function returns the integer 42; the
coordinator's generate_str returns its textual representation. -/
theorem generate_str_string_coercion_witness :
    pReduce42.generate_str (Val.vstr "X") defaultParams [0]
      = Except.ok "42" := by
  have h := generate_str_string_coercion reduce42 aggFixed (some [unitA])
    none pReduce42 pAgg rfl rfl
  have h1 := h.1 (Val.vstr "X") defaultParams [0] [Val.vstr "A"]
    (Val.vint 42) rfl rfl
  exact h1.trans (by rfl)

/-- Claim C5: with a reduction function configured, generate_structured
returns the reduction function's result unchanged — the coordinator merely
binds it onto the fan-out results — and the response model does not occur on
the right-hand side at all, so no validation or coercion against it is
performed. -/
theorem structured_function_reduction_unvalidated
    (f : List Val → Except Err Val) (ao : Option (List FanOutUnit))
    (fns : Option (List (Val → Except Err Val))) (p : ParallelLLM)
    (hp : ParallelLLM.init (FanInAgentArg.callable f) ao fns
      = Except.ok p) :
    ∀ msg rm params σ,
      p.generate_structured msg rm params σ
        = Except.bind (p.fan_out.generate msg params σ) f := by
  obtain ⟨fo, hmk, hpe⟩ := init_callable_ok f ao fns p hp
  subst hpe
  intro msg rm params σ
  cases hfo : FanOut.generate fo msg params σ with
  | error e => simp [ParallelLLM.generate_structured, hfo, Except.bind]
  | ok rs => simp [ParallelLLM.generate_structured, hfo, Except.bind]

/-- Witness for C5: on the concrete reduction coordinator, the structured
result is the reduction function's value, for an arbitrary response-model
name. -/
theorem structured_function_reduction_unvalidated_witness :
    pReduce.generate_structured (Val.vstr "X") "SomeModel" defaultParams [0]
      = Except.bind (pReduce.fan_out.generate (Val.vstr "X") defaultParams
          [0]) reduceList :=
  structured_function_reduction_unvalidated reduceList (some [unitA]) none
    pReduce rfl (Val.vstr "X") "SomeModel" defaultParams [0]

/-- Claim C6: the coordinator holds no conversation history — the history
binding is none from construction on, and no generation call reads it: the
result of every call is unchanged under any replacement of the history
field (and the embedded methods, which mutate nothing, return no updated
state). -/
theorem coordinator_holds_no_history (arg : FanInAgentArg)
    (ao : Option (List FanOutUnit))
    (fns : Option (List (Val → Except Err Val))) (p : ParallelLLM)
    (h : ParallelLLM.init arg ao fns = Except.ok p) :
    p.history = none ∧
    ∀ hist msg params σ,
      (ParallelLLM.mk p.fan_in_fn p.fan_in p.fan_out hist).generate msg
          params σ = p.generate msg params σ ∧
      (ParallelLLM.mk p.fan_in_fn p.fan_in p.fan_out hist).generate_str msg
          params σ = p.generate_str msg params σ ∧
      ∀ rm, (ParallelLLM.mk p.fan_in_fn p.fan_in p.fan_out
          hist).generate_structured msg rm params σ
        = p.generate_structured msg rm params σ := by
  constructor
  · cases arg with
    | callable f =>
      obtain ⟨fo, hmk, hpe⟩ := init_callable_ok f ao fns p h
      subst hpe
      rfl
    | agent a =>
      obtain ⟨fo, hmk, hpe⟩ := init_agent_ok a ao fns p h
      subst hpe
      rfl
  · intro hist msg params σ
    obtain ⟨ffn, fi, fo, hh⟩ := p
    exact ⟨rfl, rfl, fun rm => rfl⟩

/-- Witness for C6: the concrete reduction coordinator has no history, and
planting a history value changes no generation result. -/
theorem coordinator_holds_no_history_witness :
    pReduce.history = none ∧
    (ParallelLLM.mk pReduce.fan_in_fn pReduce.fan_in pReduce.fan_out
        (some [Val.vstr "h"])).generate (Val.vstr "X") defaultParams [0]
      = pReduce.generate (Val.vstr "X") defaultParams [0] := by
  have h := coordinator_holds_no_history (FanInAgentArg.callable reduceList)
    (some [unitA]) none pReduce rfl
  exact ⟨h.1,
    (h.2 (some [Val.vstr "h"]) (Val.vstr "X") defaultParams [0]).1⟩

/-- Claim C7: in every generation mode, the parameter bundle received by the
coordinator (use_history, max_iterations, model, stop_sequences, max_tokens,
parallel_tool_calls — all captured by encodeParams) reaches every fan-out
unit and the fan-in aggregator's invocation with identical values: spy units
that echo the bundle they receive observe exactly the caller's bundle. -/
theorem params_passed_through_unchanged (msg : Val) (params : GenParams)
    (rm : String) :
    spyCoordinator.generate msg params [1, 0]
      = Except.ok (Val.vlist [encodeParams params, encodeParams params,
          encodeParams params]) ∧
    spyCoordinator.generate_str msg params [1, 0]
      = Except.ok (py_str (Val.vlist [encodeParams params,
          encodeParams params, encodeParams params])) ∧
    spyCoordinator.generate_structured msg rm params [1, 0]
      = Except.ok (Val.vlist [Val.vstr rm, encodeParams params,
          encodeParams params, encodeParams params]) :=
  ⟨rfl, rfl, rfl⟩

/-- Claim C8: constructing a coordinator with no fan-out units configured —
whether the agent and function lists are absent or present but empty —
yields a ConfigurationError at construction time, for either kind of fan-in
argument. -/
theorem no_fanout_units_configuration_error (arg : FanInAgentArg) :
    ParallelLLM.init arg none none
      = Except.error (Err.configurationError fanOutNoUnitsMsg) ∧
    ParallelLLM.init arg (some []) (some [])
      = Except.error (Err.configurationError fanOutNoUnitsMsg) :=
  ⟨rfl, rfl⟩

/-- Claim C9: for any configured unit list, any message and parameters, and
any completion schedule that is a permutation of the unit indices, the
fan-out stage returns exactly the units' outputs in configuration order —
element i is the output of the i-th configured unit — with length equal to
the number of units, regardless of the completion order. -/
theorem fanout_preserves_configuration_order (units : List FanOutUnit)
    (msg : Val) (params : GenParams) (σ : List Nat) (outs : List Val)
    (hσ : σ.Perm (List.range units.length))
    (hok : units.map (fun u => u msg params) = outs.map Except.ok) :
    FanOut.generate ⟨units⟩ msg params σ = Except.ok outs ∧
    outs.length = units.length := by
  have hlen : outs.length = units.length := by
    have h1 := congrArg List.length hok
    simpa using h1.symm
  refine ⟨?_, hlen⟩
  show execute_tasks (units.map (fun u => u msg params)) σ = Except.ok outs
  rw [hok]
  have hσ2 : σ.Perm (List.range outs.length) := by
    rw [hlen]
    exact hσ
  exact execute_tasks_ok outs σ hσ2

/-- Witness for C9: three units A, B, C observed completing in the jittered
order 2, 0, 1 still produce the results in configuration order A, B, C. -/
theorem fanout_preserves_configuration_order_witness :
    FanOut.generate ⟨[unitA, unitB, unitC]⟩ (Val.vstr "X") defaultParams
        [2, 0, 1]
      = Except.ok [Val.vstr "A", Val.vstr "B", Val.vstr "C"] ∧
    ([Val.vstr "A", Val.vstr "B", Val.vstr "C"] : List Val).length
      = ([unitA, unitB, unitC] : List FanOutUnit).length :=
  fanout_preserves_configuration_order [unitA, unitB, unitC]
    (Val.vstr "X") defaultParams [2, 0, 1]
    [Val.vstr "A", Val.vstr "B", Val.vstr "C"] (by decide) rfl

/-- Claim C10: with a reduction function configured, generate_structured and
generate are extensionally equal — the same message, parameters and schedule
give the same value, whatever the response-model argument. -/
theorem generate_structured_eq_generate_on_reduction
    (f : List Val → Except Err Val) (ao : Option (List FanOutUnit))
    (fns : Option (List (Val → Except Err Val))) (p : ParallelLLM)
    (hp : ParallelLLM.init (FanInAgentArg.callable f) ao fns
      = Except.ok p) :
    ∀ msg rm params σ,
      p.generate_structured msg rm params σ = p.generate msg params σ := by
  obtain ⟨fo, hmk, hpe⟩ := init_callable_ok f ao fns p hp
  subst hpe
  intro msg rm params σ
  cases hfo : FanOut.generate fo msg params σ with
  | error e =>
    simp [ParallelLLM.generate_structured, ParallelLLM.generate, hfo]
  | ok rs =>
    simp [ParallelLLM.generate_structured, ParallelLLM.generate, hfo]

/-- Witness for C10: on the concrete reduction coordinator, the structured
mode with an arbitrary response-model name equals the raw mode. -/
theorem generate_structured_eq_generate_on_reduction_witness :
    pReduce.generate_structured (Val.vstr "X") "SomeModel" defaultParams [0]
      = pReduce.generate (Val.vstr "X") defaultParams [0] :=
  generate_structured_eq_generate_on_reduction reduceList (some [unitA])
    none pReduce rfl (Val.vstr "X") "SomeModel" defaultParams [0]
